import Mathlib

/-
Verification development for the argpar command-line parsing library.

The executable code of the repository is the monolithic header
include/argpar/argpar.h together with src/argpar.cpp (this is the pair the
test suite compiles against; the split headers value_config.h / option.h /
value_handler.h / positional_argument.h / exceptions.h are a later redraft
whose parsing engine does not exist in the repository).  The definitions
below are a shallow embedding of that executable code:

  * caller destinations (raw out-pointers in C++) are modelled as cells
    stored inside the corresponding slot / option record, so that a write
    through the pointer becomes a functional update of the record;
  * exceptions become an explicit error sum; since C++ exceptions abort
    parse() mid-way leaving earlier destination writes in place, the
    embedded parse returns the final mutated state together with the
    optional error;
  * std::stringstream extraction of an int and the subsequent tellg()
    call are modelled with their C++11 semantics, documented at the
    definition site;
  * double_cfg is omitted: no verified claim concerns floating point.
-/

namespace argpar

/-- The argpar::bad_value exception class (argpar.h lines 160-177).  The
class stores name_ (in parse_error), message_ (in argpar_exception) and its
own value_ member.  Crucially, NEITHER constructor mentions value_ in its
initializer list, so value_ is always the default-constructed empty
string. -/
structure bad_value_exc where
  name_ : String
  value_ : String
  message_ : String
deriving DecidableEq, Repr

/-- Two-argument constructor bad_value(name, value): initializes
parse_error(name, "Invalid value for option '<name>'.") and ignores the
value parameter, leaving value_ = "". -/
def bad_value_exc.ctor2 (name _value : String) : bad_value_exc :=
  { name_ := name
    value_ := ""
    message_ := "Invalid value for option '" ++ name ++ "'." }

/-- Three-argument constructor bad_value(name, value, message): initializes
parse_error(name, message) and ignores the value parameter, leaving
value_ = "". -/
def bad_value_exc.ctor3 (name _value message : String) : bad_value_exc :=
  { name_ := name
    value_ := ""
    message_ := message }

/-- Accessor bad_value::value(), returning the stored value_ member. -/
def bad_value_exc.value (e : bad_value_exc) : String :=
  e.value_

/-- Accessor parse_error::name(). -/
def bad_value_exc.name (e : bad_value_exc) : String :=
  e.name_

/-- The closed taxonomy of exceptions that argpar::parser::parse can raise:
the four parse_error subclasses of argpar.h, the raw argpar::format_error
that escapes unwrapped from the positional-consumption loop, the
std::logic_error("Too many arguments.") and std::invalid_argument from the
argc check. -/
inductive parse_exc where
  | bad_option (name : String)
  | bad_value (e : bad_value_exc)
  | missing_option (name : String)
  | missing_value (name : String)
  | format_error (message : String)
  | logic_error (message : String)
  | invalid_argument (message : String)
deriving DecidableEq, Repr

/-- A parsed value written through a destination pointer: int or string
(double omitted, see header comment). -/
inductive value where
  | vint (i : Int)
  | vstr (s : String)
deriving DecidableEq, Repr

/-- Configuration state of cfg_integral_base<int_cfg, int> (argpar.h lines
276-320): bounds default to the full int range
(std::numeric_limits<int>), with_default stores into the cfg_base
optional. -/
structure int_cfg where
  min_value : Int := -2147483648
  max_value : Int := 2147483647
  default_value : Option Int := none
deriving DecidableEq, Repr

/-- Configuration state of string_cfg (argpar.h lines 251-274): the allowed
list values_ (empty means any value allowed) and the cfg_base default. -/
structure string_cfg where
  values : List String := []
  default_value : Option String := none
deriving DecidableEq, Repr

/-- The six whitespace characters skipped by default formatted stream
extraction (std::isspace in the "C" locale). -/
def isStreamSpace (c : Char) : Bool :=
  c = ' ' || c = '\t' || c = '\n' || c = '\r' || c = Char.ofNat 11 || c = Char.ofNat 12

/-- Decimal value of a digit run. -/
def digitsToNat (ds : List Char) : Nat :=
  ds.foldl (fun a c => a * 10 + (c.toNat - 48)) 0

/-- Model of C++ formatted int extraction `ss >> val` from a
std::stringstream holding exactly the token: skip leading whitespace, read
an optional sign and then a maximal run of decimal digits.  Returns the
extracted int together with the number of characters consumed, or none when
extraction sets failbit (no digits, or the value does not fit in int: since
C++11 num_get sets failbit on out-of-range).  The stream ends at eofbit
exactly when the consumed count equals the token length. -/
def cppExtractInt (s : String) : Option (Int × Nat) :=
  let cs := s.data
  let ws := cs.takeWhile isStreamSpace
  let rest := cs.dropWhile isStreamSpace
  let signLen : Nat :=
    match rest with
    | '-' :: _ => 1
    | '+' :: _ => 1
    | _ => 0
  let negative : Bool :=
    match rest with
    | '-' :: _ => true
    | _ => false
  let digits := (rest.drop signLen).takeWhile Char.isDigit
  if digits = [] then none
  else
    let mag : Int := (digitsToNat digits : Int)
    let v : Int := if negative then -mag else mag
    if v < -2147483648 || v > 2147483647 then none
    else some (v, ws.length + signLen + digits.length)

/-- Model of `ss.tellg()` evaluated right after the extraction above.
C++11 tellg behaves as an unformatted input function: its sentry sets
failbit when the stream is not good(), which is the case whenever eofbit
was set, i.e. whenever the extraction consumed the whole token; tellg then
returns pos_type(-1).  Otherwise it returns the current position, the
number of characters consumed. -/
def streamTellg (consumed len : Nat) : Int :=
  if consumed = len then -1 else (consumed : Int)

/-- cfg_integral_base<int_cfg, int>::parse (argpar.h lines 293-308):
extract with `ss >> val`, throw format_error when extraction failed or
`ss.tellg() != value.size()`, then throw format_error when the value is
outside [min_value_, max_value_], else return it.  (Because tellg returns
-1 whenever the whole token was consumed and the position otherwise, the
first check fails for every token; the repository's redrafted
value_config.h replaces it with `!ss || !ss.eof()`.) -/
def int_cfg.parse (c : int_cfg) (v : String) : Except String Int :=
  match cppExtractInt v with
  | none => .error ("Value '" ++ v ++ "' does not represent a valid number.")
  | some (val, consumed) =>
    if streamTellg consumed v.length ≠ (v.length : Int) then
      .error ("Value '" ++ v ++ "' does not represent a valid number.")
    else if val > c.max_value || val < c.min_value then
      .error ("Value '" ++ v ++ "' is out of bounds.")
    else
      .ok val

/-- string_cfg::parse (argpar.h lines 261-269): the code throws
format_error when values_ is nonempty AND std::find locates the token in
values_ (i.e. when the token IS one of the allowed values), and returns
the token otherwise. -/
def string_cfg.parse (c : string_cfg) (v : String) : Except String String :=
  if c.values ≠ [] ∧ c.values.contains v then
    .error ("Value '" ++ v ++ "' is not allowed.")
  else
    .ok v

/-- The coercer configuration attached to a value handler: one of the
built-in cfg variants. -/
inductive cfg where
  | int_config (c : int_cfg)
  | string_config (c : string_cfg)
deriving DecidableEq, Repr

/-- TConfig::parse dispatched over the variant, producing a typed value. -/
def cfg.parseVal : cfg → String → Except String value
  | .int_config c, s => (c.parse s).map value.vint
  | .string_config c, s => (c.parse s).map value.vstr

/-- cfg_base::has_default. -/
def cfg.hasDefault : cfg → Bool
  | .int_config c => c.default_value.isSome
  | .string_config c => c.default_value.isSome

/-- cfg_base::get_default, as an optional typed value. -/
def cfg.getDefault : cfg → Option value
  | .int_config c => c.default_value.map value.vint
  | .string_config c => c.default_value.map value.vstr

/-- A configured single-value slot: the state of a value_config whose
custom_val was called, i.e. a single_value_handler — its display name, its
TConfig configuration object, and the contents of the caller's destination
cell (*dest_ in the C++, modelled as a stored cell). -/
structure value_slot where
  name : String
  config : cfg
  dest : value
deriving DecidableEq, Repr

/-- A configured variadic slot: the state of a value_list_config whose
custom_val was called, i.e. a multi_value_handler over an appendable
destination container. -/
structure list_slot where
  name : String
  config : cfg
  dest : List value
deriving DecidableEq, Repr

/-- The argpar::option registry entry (argpar.h lines 552-610): alias
vector as declared, the optional bool observation cell (flag_dest_,
modelled with its current contents; none = null pointer = mandatory
option), the attached value slot (none when value_config_.handler_ is
null), and the found_ flag.  hint_ is omitted: it is display-only. -/
structure option where
  aliases : List String
  flag_dest : Option Bool
  slot : Option value_slot
  found : Bool
deriving DecidableEq, Repr

/-- option::arg_type enumeration. -/
inductive arg_kind where
  | no_arg
  | optional
  | mandatory
deriving DecidableEq, Repr

/-- option::arg_type(): no_arg when no handler is configured, else
optional / mandatory according to has_default(). -/
def option.get_arg_type (o : option) : arg_kind :=
  match o.slot with
  | none => .no_arg
  | some s => if s.config.hasDefault then .optional else .mandatory

/-- option::mandatory(): true iff flag_dest_ is the null pointer. -/
def option.is_mandatory (o : option) : Bool :=
  o.flag_dest.isNone

/-- option::set_found(): sets found_ and writes true through flag_dest_
when the pointer is non-null. -/
def option.set_found (o : option) : option :=
  { o with found := true, flag_dest := o.flag_dest.map (fun _ => true) }

/-- The argpar::parser registry after declaration time: the owned options
in declaration order, the short- and long-alias indices (mapping to the
position inside options_), the ordered single-valued positional slots and
the optional trailing variadic slot.  A positional the host declared but
never typed (null handler_) is outside the model: parse dereferences such
a handler unconditionally, and every verified claim concerns typed
slots. -/
structure parser where
  options : List option
  short_to_option : List (Char × Nat)
  long_to_option : List (String × Nat)
  positional_arguments : List value_slot
  additional_arguments : Option list_slot
deriving DecidableEq, Repr

/-- Placeholder entry for out-of-range list indexing (never reached on the
indices produced by the alias maps of a well-formed registry). -/
def dummy_option : option :=
  { aliases := [], flag_dest := none, slot := none, found := false }

/-- Association-list lookup modelling unordered_map<char, option*>::find. -/
def lookupShort : List (Char × Nat) → Char → Option Nat
  | [], _ => none
  | (k, v) :: rest, c => if k = c then some v else lookupShort rest c

/-- Association-list lookup modelling unordered_map<string, option*>::find. -/
def lookupLong : List (String × Nat) → String → Option Nat
  | [], _ => none
  | (k, v) :: rest, n => if k = n then some v else lookupLong rest n

/-- Apply a mutation to the option at the given registry index. -/
def modifyOpt (p : parser) (idx : Nat) (f : option → option) : parser :=
  { p with options := p.options.set idx (f (p.options.getD idx dummy_option)) }

/-- single_value_handler::parse's destination write `*dest_ = ...` for the
value slot of option idx. -/
def setOptDest (p : parser) (idx : Nat) (v : value) : parser :=
  modifyOpt p idx (fun o => { o with slot := o.slot.map (fun s => { s with dest := v }) })

/-- argpar::parser::set_parsed_value (argpar.cpp lines 98-129).  Returns
the updated registry together with the updated current_option
(some (idx, option_name) when the option is still pending a value, none
when parsing of it finished), or the exception thrown.  The switch on
arg_type() is rendered as the match on handler_ presence / has_default()
from which arg_type() is derived; a format_error thrown by the coercer is
re-wrapped as bad_value(option_name, value.value(), e.message()) by the
catch block.  Destination writes happen only on coercer success, so the
registry is unchanged on every thrown exception. -/
def set_parsed_value (p : parser) (idx : Nat) (option_name : String)
    (val : Option String) : (parser × Option (Nat × String)) ⊕ parse_exc :=
  let o := p.options.getD idx dummy_option
  match o.slot with
  | none =>
    match val with
    | some v =>
      .inr (.bad_value (bad_value_exc.ctor3 option_name v
        ("Option '" ++ option_name ++ "' does not take any values")))
    | none => .inl (p, none)
  | some s =>
    if s.config.hasDefault then
      match val with
      | some v =>
        match s.config.parseVal v with
        | .ok pv => .inl (setOptDest p idx pv, none)
        | .error msg => .inr (.bad_value (bad_value_exc.ctor3 option_name v msg))
      | none =>
        .inl (setOptDest p idx (s.config.getDefault.getD s.dest), none)
    else
      match val with
      | some v =>
        match s.config.parseVal v with
        | .ok pv => .inl (setOptDest p idx pv, none)
        | .error msg => .inr (.bad_value (bad_value_exc.ctor3 option_name v msg))
      | none => .inl (p, some (idx, option_name))

/-- Split the characters after the leading "--" of a long-option token at
the first '=': arg.find('=') and the two substr calls of argpar.cpp lines
164-170 (when no '=' exists, substr(2, npos - 2) takes the whole rest). -/
def splitEq : List Char → List Char × Option (List Char)
  | [] => ([], none)
  | '=' :: rest => ([], some rest)
  | c :: rest =>
    let (n, v) := splitEq rest
    (c :: n, v)

/-- Result of the condensed short-option walk: the registry after the
set_found calls performed inside the while loop, the index of the option
the walk stopped at (current_option) and the character it stopped at
(arg[flag_pos]); or the bad_option exception together with the registry
state at the throw. -/
inductive short_res where
  | ok (p : parser) (idx : Nat) (c : Char)
  | err (p : parser) (e : parse_exc)
deriving Repr

/-- The registry state carried by a short_res. -/
def short_res.state : short_res → parser
  | .ok p _ _ => p
  | .err p _ => p

/-- The while loop of the short-option branch (argpar.cpp lines 176-183):
look up each successive character, stop at the first option that takes a
value, and set_found each no-value option walked over; the character list
argument holds the characters after the one being processed.  An unknown
character raises bad_option(std::to_string(letter)) — std::to_string has
no char overload, so the letter is promoted to int and the resulting name
is the decimal text of its character code. -/
def shortScan (p : parser) (c : Char) (cs : List Char) : short_res :=
  match lookupShort p.short_to_option c with
  | none => .err p (.bad_option (toString c.toNat))
  | some idx =>
    if (p.options.getD idx dummy_option).get_arg_type ≠ arg_kind.no_arg then
      .ok p idx c
    else
      let p' := modifyOpt p idx option.set_found
      match cs with
      | [] => .ok p' idx c
      | c' :: cs' => shortScan p' c' cs'

/-- Result of the option-scanning for loop: the registry, the pending
current_option (with its option_name) and the tokens left for the
positional phase; or the exception with the registry state at the
throw. -/
inductive scan_res where
  | ok (p : parser) (pending : Option (Nat × String)) (rest : List String)
  | err (p : parser) (e : parse_exc)
deriving Repr

/-- The registry state carried by a scan_res. -/
def scan_res.state : scan_res → parser
  | .ok p _ _ => p
  | .err p _ => p

/-- The option-scanning for loop of argpar::parser::parse (argpar.cpp
lines 143-195), processing the tokens after the program name.  Each
iteration: the "--" delimiter is consumed and ends the loop; else a
pending option consumes the token as its value; else a token of length
greater than 1 starting with '-' is matched as a long (second '-') or
short option, is set_found, and its attached value (an '='-suffix for
long options only, never for short options) is resolved through
set_parsed_value; any other token ends the loop unconsumed. -/
def scanLoop (p : parser) (pending : Option (Nat × String)) :
    List String → scan_res
  | [] => .ok p pending []
  | arg :: rest =>
    if arg = "--" then
      .ok p pending rest
    else
      match pending with
      | some (idx, name) =>
        match set_parsed_value p idx name (some arg) with
        | .inl (p', pend') => scanLoop p' pend' rest
        | .inr e => .err p e
      | none =>
        match arg.data with
        | c0 :: c1 :: cs =>
          if c0 = '-' then
            if c1 = '-' then
              let (nameCs, valCs) := splitEq cs
              let option_name := String.mk nameCs
              let val := valCs.map String.mk
              match lookupLong p.long_to_option option_name with
              | none => .err p (.bad_option option_name)
              | some idx =>
                let p₁ := modifyOpt p idx option.set_found
                match set_parsed_value p₁ idx option_name val with
                | .inl (p₂, pend') => scanLoop p₂ pend' rest
                | .inr e => .err p₁ e
            else
              match shortScan p c1 cs with
              | .err p' e => .err p' e
              | .ok p' idx c' =>
                let option_name := String.mk [c']
                let p₁ := modifyOpt p' idx option.set_found
                match set_parsed_value p₁ idx option_name none with
                | .inl (p₂, pend') => scanLoop p₂ pend' rest
                | .inr e => .err p₁ e
          else .ok p pending (arg :: rest)
        | _ => .ok p pending (arg :: rest)

/-- argpar::parser::verify_options (argpar.h lines 704-711): the first
declared mandatory option that was not found raises
missing_option(aliases()[0]). -/
def verify_options (p : parser) : Option parse_exc :=
  match p.options.find? (fun o => o.is_mandatory && !o.found) with
  | some o => some (.missing_option (o.aliases.headD ""))
  | none => none

/-- Placeholder slot for out-of-range list indexing (never reached: the
positional loop indexes only below the length). -/
def dummy_slot : value_slot :=
  { name := "", config := .string_config {}, dest := .vstr "" }

/-- Destination write for the positional slot at the given index. -/
def setPosDest (p : parser) (idx : Nat) (v : value) : parser :=
  let s := p.positional_arguments.getD idx dummy_slot
  { p with positional_arguments :=
      p.positional_arguments.set idx { s with dest := v } }

/-- The positional-consumption for loop of argpar::parser::parse
(argpar.cpp lines 203-219): each remaining token feeds the next declared
single-valued positional slot, then the variadic slot if declared, else
std::logic_error("Too many arguments.") is thrown.  A format_error from a
positional coercer escapes unwrapped.  Note the loop only walks the
remaining tokens: positional slots left unfilled when the tokens run out
are neither defaulted nor reported. -/
def posLoop (p : parser) (pos : Nat) : List String → parser × Option parse_exc
  | [] => (p, none)
  | arg :: rest =>
    if pos < p.positional_arguments.length then
      let slot := p.positional_arguments.getD pos dummy_slot
      match slot.config.parseVal arg with
      | .error msg => (p, some (.format_error msg))
      | .ok v => posLoop (setPosDest p pos v) (pos + 1) rest
    else
      match p.additional_arguments with
      | none => (p, some (.logic_error "Too many arguments."))
      | some ls =>
        match ls.config.parseVal arg with
        | .error msg => (p, some (.format_error msg))
        | .ok v =>
          posLoop { p with additional_arguments := some { ls with dest := ls.dest ++ [v] } }
            (pos + 1) rest

/-- argpar::parser::parse (argpar.cpp lines 131-220) over the full argv
token list (args.head is the program name, skipped by starting at index
1).  Phases in source order: the argc validity check, the option-scanning
loop, the missing_value check for a still-pending option, verify_options,
and the positional-consumption loop.  No found flag or destination is
reset anywhere.  Returns the final registry state together with the raised
exception, if any. -/
def parser.parse (p : parser) (args : List String) : parser × Option parse_exc :=
  if args.length < 1 then
    (p, some (.invalid_argument "Parameter argc cannot be less than 1."))
  else
    match scanLoop p none (args.drop 1) with
    | .err p' e => (p', some e)
    | .ok p' pending rest =>
      match pending with
      | some (_, option_name) => (p', some (.missing_value option_name))
      | none =>
        match verify_options p' with
        | some e => (p', some e)
        | none => posLoop p' 0 rest

/-- Contents of the value destination cell of the option at registry index
i (none when the option has no value slot). -/
def optDest (p : parser) (i : Nat) : Option value :=
  ((p.options.getD i dummy_option).slot).map value_slot.dest

/-- The found_ flag of the option at registry index i. -/
def optFound (p : parser) (i : Nat) : Bool :=
  (p.options.getD i dummy_option).found

/-- Contents of the bool observation cell of the option at registry index
i (none when the option was declared without one). -/
def optFlagCell (p : parser) (i : Nat) : Option Bool :=
  (p.options.getD i dummy_option).flag_dest

/-- Contents of the destination cell of positional slot i. -/
def posDest (p : parser) (i : Nat) : Option value :=
  (p.positional_arguments.get? i).map value_slot.dest

/-- How a single registry entry can evolve across anything parse does to
it: either the found_ flag and the observation cell are both untouched, or
the entry went through option::set_found at least once, which forces
found_ to true and overwrites a non-null observation cell with true.  The
value-slot destination is unconstrained. -/
def optEvolved (a b : option) : Prop :=
  (b.flag_dest = a.flag_dest ∧ b.found = a.found) ∨
  (b.flag_dest = a.flag_dest.map (fun _ => true) ∧ b.found = true)

/-- Pointwise lifting of optEvolved to the whole registry, in declaration
order. -/
inductive OptsMono : List option → List option → Prop
  | nil : OptsMono [] []
  | cons {a b : option} {l₁ l₂ : List option} :
      optEvolved a b → OptsMono l₁ l₂ → OptsMono (a :: l₁) (b :: l₂)

/-- The option registries of two parser states are pointwise related by
optEvolved. -/
def parserMono (p q : parser) : Prop :=
  OptsMono p.options q.options

/-- Registry for claim C1's scenario: no options, one default-less int
positional named "arg" (argument().int_val("arg", &dest)). -/
def pC1 : parser :=
  { options := []
    short_to_option := []
    long_to_option := []
    positional_arguments := [{ name := "arg", config := .int_config {}, dest := .vint 0 }]
    additional_arguments := none }

/-- Registry for claim C2's scenario: an optional (flag-form) option f
whose string parameter has default "xxx" and whose destination cell starts
at "start", plus one positional with default "dflt" whose destination
starts at "pstart". -/
def pC2 : parser :=
  { options := [{ aliases := ["f"], flag_dest := some false
                  slot := some { name := "FORMAT"
                                 config := .string_config { default_value := some "xxx" }
                                 dest := .vstr "start" }
                  found := false }]
    short_to_option := [('f', 0)]
    long_to_option := []
    positional_arguments := [{ name := "arg"
                               config := .string_config { default_value := some "dflt" }
                               dest := .vstr "pstart" }]
    additional_arguments := none }

/-- Registry for claim C3's scenario: one mandatory option f with a
mandatory string parameter. -/
def pC3 : parser :=
  { options := [{ aliases := ["f"], flag_dest := none
                  slot := some { name := "val", config := .string_config {}, dest := .vstr "" }
                  found := false }]
    short_to_option := [('f', 0)]
    long_to_option := []
    positional_arguments := []
    additional_arguments := none }

/-- Registry for claim C4's scenario (the test fixture of
option_test.cpp's parses_condensed, with a string parameter so that the
condensation defect is observed in isolation): no-value flags a and b, and
an option o whose string parameter has default "d". -/
def pC4 : parser :=
  { options := [{ aliases := ["a"], flag_dest := some false, slot := none, found := false },
                { aliases := ["b"], flag_dest := some false, slot := none, found := false },
                { aliases := ["o"], flag_dest := none
                  slot := some { name := "val"
                                 config := .string_config { default_value := some "d" }
                                 dest := .vstr "init" }
                  found := false }]
    short_to_option := [('a', 0), ('b', 1), ('o', 2)]
    long_to_option := []
    positional_arguments := []
    additional_arguments := none }

/-- Registry for claim C5's scenario: nothing declared at all. -/
def pC5 : parser :=
  { options := []
    short_to_option := []
    long_to_option := []
    positional_arguments := []
    additional_arguments := none }

/-- Registry for claim C6's scenario: a mandatory option f with an int
parameter constrained by between(0, 5) (the option_param_between test). -/
def pC6 : parser :=
  { options := [{ aliases := ["f"], flag_dest := none
                  slot := some { name := "val"
                                 config := .int_config { min_value := 0, max_value := 5 }
                                 dest := .vint 0 }
                  found := false }]
    short_to_option := [('f', 0)]
    long_to_option := []
    positional_arguments := []
    additional_arguments := none }

/-- Registry for claim C7's scenario: a mandatory option f with a string
parameter constrained by from({"a","b","c"}). -/
def pC7 : parser :=
  { options := [{ aliases := ["f"], flag_dest := none
                  slot := some { name := "FORMAT"
                                 config := .string_config { values := ["a", "b", "c"] }
                                 dest := .vstr "" }
                  found := false }]
    short_to_option := [('f', 0)]
    long_to_option := []
    positional_arguments := []
    additional_arguments := none }

/-- Registry for claim C9's scenario: a mandatory option f with a
mandatory unconstrained string parameter, and a flag option g — so that a
token spelled "-g", which names a declared option, can be offered as f's
value. -/
def pC9 : parser :=
  { options := [{ aliases := ["f"], flag_dest := none
                  slot := some { name := "val", config := .string_config {}, dest := .vstr "" }
                  found := false },
                { aliases := ["g"], flag_dest := some false, slot := none, found := false }]
    short_to_option := [('f', 0), ('g', 1)]
    long_to_option := []
    positional_arguments := []
    additional_arguments := none }

/-- pC9 after the token "-f" has been scanned: f is found and pends for
its value. -/
def pC9_found : parser :=
  { options := [{ aliases := ["f"], flag_dest := none
                  slot := some { name := "val", config := .string_config {}, dest := .vstr "" }
                  found := true },
                { aliases := ["g"], flag_dest := some false, slot := none, found := false }]
    short_to_option := [('f', 0), ('g', 1)]
    long_to_option := []
    positional_arguments := []
    additional_arguments := none }

/-- pC9 after f consumed the token t as its value. -/
def pC9_after (t : String) : parser :=
  { options := [{ aliases := ["f"], flag_dest := none
                  slot := some { name := "val", config := .string_config {}, dest := .vstr t }
                  found := true },
                { aliases := ["g"], flag_dest := some false, slot := none, found := false }]
    short_to_option := [('f', 0), ('g', 1)]
    long_to_option := []
    positional_arguments := []
    additional_arguments := none }

theorem optEvolved_refl (a : option) : optEvolved a a :=
  Or.inl ⟨rfl, rfl⟩

theorem optEvolved_trans {a b c : option} (h₁ : optEvolved a b) (h₂ : optEvolved b c) :
    optEvolved a c := by
  rcases h₁ with ⟨hf, hd⟩ | ⟨hf, hd⟩ <;> rcases h₂ with ⟨hf', hd'⟩ | ⟨hf', hd'⟩
  · exact Or.inl ⟨hf'.trans hf, hd'.trans hd⟩
  · exact Or.inr ⟨by rw [hf', hf], hd'⟩
  · exact Or.inr ⟨by rw [hf', hf], by rw [hd', hd]⟩
  · refine Or.inr ⟨?_, hd'⟩
    rw [hf', hf]
    cases a.flag_dest <;> rfl

theorem optEvolved_set_found (a : option) : optEvolved a a.set_found :=
  Or.inr ⟨rfl, rfl⟩

theorem optEvolved_slot_write (a : option) (v : value) :
    optEvolved a { a with slot := a.slot.map (fun s => { s with dest := v }) } :=
  Or.inl ⟨rfl, rfl⟩

theorem OptsMono.rfl (l : List option) : OptsMono l l := by
  induction l with
  | nil => exact OptsMono.nil
  | cons a t ih => exact OptsMono.cons (optEvolved_refl a) ih

theorem OptsMono.trans {l₁ l₂ l₃ : List option} (h₁ : OptsMono l₁ l₂) (h₂ : OptsMono l₂ l₃) :
    OptsMono l₁ l₃ := by
  induction h₁ generalizing l₃ with
  | nil => exact h₂
  | cons hab _ ih =>
    cases h₂ with
    | cons hbc htl => exact OptsMono.cons (optEvolved_trans hab hbc) (ih htl)

theorem OptsMono.getD {l₁ l₂ : List option} (h : OptsMono l₁ l₂) (i : Nat) (d : option) :
    optEvolved (l₁.getD i d) (l₂.getD i d) := by
  induction h generalizing i with
  | nil => exact optEvolved_refl d
  | cons hab _ ih =>
    cases i with
    | zero => simpa using hab
    | succ n => simpa using ih n

theorem OptsMono.set (l : List option) (i : Nat) (f : option → option)
    (hf : ∀ o, optEvolved o (f o)) :
    OptsMono l (l.set i (f (l.getD i dummy_option))) := by
  induction l generalizing i with
  | nil => exact OptsMono.nil
  | cons a t ih =>
    cases i with
    | zero => simpa using OptsMono.cons (hf a) (OptsMono.rfl t)
    | succ n => simpa using OptsMono.cons (optEvolved_refl a) (ih n)

theorem modifyOpt_set_found_mono (p : parser) (idx : Nat) :
    parserMono p (modifyOpt p idx option.set_found) :=
  OptsMono.set p.options idx option.set_found optEvolved_set_found

theorem setOptDest_mono (p : parser) (idx : Nat) (v : value) :
    parserMono p (setOptDest p idx v) :=
  OptsMono.set p.options idx _ (fun o => optEvolved_slot_write o v)

theorem parserMono_rfl (p : parser) : parserMono p p :=
  OptsMono.rfl p.options

theorem parserMono_trans {p q r : parser} (h₁ : parserMono p q) (h₂ : parserMono q r) :
    parserMono p r :=
  OptsMono.trans h₁ h₂

theorem set_parsed_value_mono {p p' : parser} {idx : Nat} {nm : String}
    {val : Option String} {pend : Option (Nat × String)}
    (h : set_parsed_value p idx nm val = Sum.inl (p', pend)) : parserMono p p' := by
  unfold set_parsed_value at h
  dsimp only [] at h
  split at h
  · -- no value handler configured (no_arg)
    split at h
    · exact absurd h (by simp)
    · cases h
      exact parserMono_rfl p
  · -- a value handler is configured
    split at h
    · -- has_default (optional)
      split at h
      · split at h
        · cases h
          exact setOptDest_mono p idx _
        · exact absurd h (by simp)
      · cases h
        exact setOptDest_mono p idx _
    · -- no default (mandatory)
      split at h
      · split at h
        · cases h
          exact setOptDest_mono p idx _
        · exact absurd h (by simp)
      · cases h
        exact parserMono_rfl p

theorem shortScan_mono (cs : List Char) : ∀ (p : parser) (c : Char),
    parserMono p (shortScan p c cs).state := by
  induction cs with
  | nil =>
    intro p c
    unfold shortScan
    cases lookupShort p.short_to_option c with
    | none => exact parserMono_rfl p
    | some idx =>
      dsimp only []
      split
      · exact parserMono_rfl p
      · exact modifyOpt_set_found_mono p idx
  | cons c' cs' ih =>
    intro p c
    unfold shortScan
    cases lookupShort p.short_to_option c with
    | none => exact parserMono_rfl p
    | some idx =>
      dsimp only []
      split
      · exact parserMono_rfl p
      · exact parserMono_trans (modifyOpt_set_found_mono p idx) (ih _ c')

theorem scanLoop_mono (toks : List String) : ∀ (p : parser) (pending : Option (Nat × String)),
    parserMono p (scanLoop p pending toks).state := by
  induction toks with
  | nil =>
    intro p pending
    exact parserMono_rfl p
  | cons arg rest ih =>
    intro p pending
    unfold scanLoop
    by_cases hdd : arg = "--"
    · simp only [hdd, if_pos rfl, scan_res.state]
      exact parserMono_rfl p
    · rw [if_neg hdd]
      cases pending with
      | some pr =>
        obtain ⟨idx, nm⟩ := pr
        dsimp only []
        cases hs : set_parsed_value p idx nm (some arg) with
        | inl pr' =>
          obtain ⟨p', pend'⟩ := pr'
          exact parserMono_trans (set_parsed_value_mono hs) (ih p' pend')
        | inr e => exact parserMono_rfl p
      | none =>
        cases harg : arg.data with
        | nil => exact parserMono_rfl p
        | cons c0 tl =>
          cases tl with
          | nil => exact parserMono_rfl p
          | cons c1 cs =>
            dsimp only []
            by_cases h0 : c0 = '-'
            · rw [if_pos h0]
              by_cases h1 : c1 = '-'
              · rw [if_pos h1]
                cases lookupLong p.long_to_option (String.mk (splitEq cs).1) with
                | none => exact parserMono_rfl p
                | some idx =>
                  dsimp only []
                  cases hs : set_parsed_value (modifyOpt p idx option.set_found) idx
                      (String.mk (splitEq cs).1) ((splitEq cs).2.map String.mk) with
                  | inl pr' =>
                    obtain ⟨p₂, pend'⟩ := pr'
                    exact parserMono_trans (modifyOpt_set_found_mono p idx)
                      (parserMono_trans (set_parsed_value_mono hs) (ih p₂ pend'))
                  | inr e =>
                    exact modifyOpt_set_found_mono p idx
              · rw [if_neg h1]
                cases hss : shortScan p c1 cs with
                | err p' e =>
                  have hm := shortScan_mono cs p c1
                  rw [hss] at hm
                  exact hm
                | ok p' idx c' =>
                  have hm := shortScan_mono cs p c1
                  rw [hss] at hm
                  dsimp only [short_res.state] at hm
                  dsimp only []
                  cases hs : set_parsed_value (modifyOpt p' idx option.set_found) idx
                      (String.mk [c']) none with
                  | inl pr' =>
                    obtain ⟨p₂, pend'⟩ := pr'
                    exact parserMono_trans hm
                      (parserMono_trans (modifyOpt_set_found_mono p' idx)
                        (parserMono_trans (set_parsed_value_mono hs) (ih p₂ pend')))
                  | inr e =>
                    exact parserMono_trans hm (modifyOpt_set_found_mono p' idx)
            · rw [if_neg h0]
              exact parserMono_rfl p

theorem posLoop_options (toks : List String) : ∀ (p : parser) (pos : Nat),
    ((posLoop p pos toks).1).options = p.options := by
  induction toks with
  | nil =>
    intro p pos
    rfl
  | cons arg rest ih =>
    intro p pos
    unfold posLoop
    by_cases hp : pos < p.positional_arguments.length
    · rw [if_pos hp]
      dsimp only []
      cases (p.positional_arguments.getD pos dummy_slot).config.parseVal arg with
      | error msg => rfl
      | ok v => exact (ih _ _).trans rfl
    · rw [if_neg hp]
      cases p.additional_arguments with
      | none => rfl
      | some ls =>
        dsimp only []
        cases ls.config.parseVal arg with
        | error msg => rfl
        | ok v => exact (ih _ _).trans rfl

theorem parse_mono (p : parser) (args : List String) :
    parserMono p (parser.parse p args).1 := by
  unfold parser.parse
  by_cases h1 : args.length < 1
  · rw [if_pos h1]
    exact parserMono_rfl p
  · rw [if_neg h1]
    cases hsc : scanLoop p none (args.drop 1) with
    | err p' e =>
      have hm := scanLoop_mono (args.drop 1) p none
      rw [hsc] at hm
      exact hm
    | ok p' pending rest =>
      have hm := scanLoop_mono (args.drop 1) p none
      rw [hsc] at hm
      dsimp only [scan_res.state] at hm
      cases pending with
      | some pr =>
        obtain ⟨idx, nm⟩ := pr
        exact hm
      | none =>
        dsimp only []
        cases verify_options p' with
        | some e => exact hm
        | none =>
          dsimp only []
          have hopts := posLoop_options rest p' 0
          unfold parserMono
          rw [hopts]
          exact hm

/-- The cfg_integral_base<int_cfg, int>::parse of argpar.h rejects every
token: after a full-token extraction the stream is at EOF so tellg()
returns -1, never equal to value.size(), and after a partial extraction
the position differs from value.size() as well. -/
theorem int_cfg_parse_always_fails (c : int_cfg) (v : String) :
    int_cfg.parse c v =
      .error ("Value '" ++ v ++ "' does not represent a valid number.") := by
  unfold int_cfg.parse
  cases cppExtractInt v with
  | none => rfl
  | some pr =>
    obtain ⟨val, consumed⟩ := pr
    dsimp only []
    rw [if_pos]
    unfold streamTellg
    by_cases hc : consumed = v.length
    · rw [if_pos hc]
      intro hh
      omega
    · rw [if_neg hc]
      intro hh
      exact hc (by exact_mod_cast hh)

/-- Claim C1.  The claim says: when the tokens run out with single-valued
positionals unfilled, parse applies defaults and raises
MissingValue("arg") for the default-less int positional on input ["cmd"].
The code's positional loop (argpar.cpp 203-219) only walks the remaining
tokens and never revisits unfilled slots, so this theorem evaluates the
code at that exact input: parse returns WITHOUT error and leaves the
destination untouched, contradicting the claim, the spec and the
repository's own tests (plain_arguments_test.cpp too_few_arguments and
test3.cpp positional_arguments.too_few_arguments expect missing_value)
as well as the parse doc comment in argpar.h. -/
theorem C1_unfilled_positionals_silently_ignored :
    (parser.parse pC1 ["cmd"]).2 = none ∧
    posDest (parser.parse pC1 ["cmd"]).1 0 = some (.vint 0) := by
  decide

/-- Claim C2.  The claim says: an optional option or defaulted positional
absent from the input ends with its destination holding the configured
default and found = false.  The code only calls set_default for an option
that DOES appear without an attached value; an entirely absent option or
an unfilled positional is never touched.  At input ["cmd"], with f's
string parameter defaulting to "xxx" (destination initially "start") and
the positional defaulting to "dflt" (destination initially "pstart"),
parse completes without error, both destinations keep their prior
contents and found stays false — contradicting the claim, the
with_default documentation, and the tests (positional half:
plain_arguments_test.cpp sets_default; option half: test2.cpp
TypeCfgTests.stringCfg_default_equal). -/
theorem C2_absent_defaults_not_applied :
    (parser.parse pC2 ["cmd"]).2 = none ∧
    optDest (parser.parse pC2 ["cmd"]).1 0 = some (.vstr "start") ∧
    posDest (parser.parse pC2 ["cmd"]).1 0 = some (.vstr "pstart") ∧
    optFound (parser.parse pC2 ["cmd"]).1 0 = false := by
  decide

/-- Claim C3, counterexample.  The claim says found flags are reset at the
start of every parse call, so found state cannot leak between two calls on
the same instance.  Concretely: after parse #1 on ["cmd", "-f", "v"] the
mandatory option f has found = true; parse #2 on ["cmd"] — in which f is
absent — then completes WITHOUT raising missing_option("f"), because the
leaked found flag satisfies verify_options.  Under the claimed reset the
second call would raise missing_option; the code has no reset (argpar.cpp
131-143 initializes only local cursor state). -/
theorem C3_found_reset_counterexample :
    optFound (parser.parse pC3 ["cmd", "-f", "v"]).1 0 = true ∧
    (parser.parse (parser.parse pC3 ["cmd", "-f", "v"]).1 ["cmd"]).2 = none := by
  decide

/-- Claim C3, amended.  parse never resets or clears a found flag: a found
flag that is true before a call is still true after it, whatever the token
vector — so found state persists across repeated parse calls on the same
parser instance (rather than being reset as claimed). -/
theorem C3_found_flags_monotone (p : parser) (args : List String) (i : Nat)
    (h : optFound p i = true) : optFound (parser.parse p args).1 i = true := by
  have he := OptsMono.getD (parse_mono p args) i dummy_option
  rcases he with ⟨_, hfd⟩ | ⟨_, hfd⟩
  · unfold optFound at h ⊢
    rw [hfd]
    exact h
  · exact hfd

/-- Witness for C3_found_flags_monotone, at the state left by a first
parse of ["cmd", "-f", "v"] and a second token vector ["cmd"]. -/
theorem C3_found_flags_monotone_witness :
    optFound (parser.parse pC3 ["cmd", "-f", "v"]).1 0 = true ∧
    optFound (parser.parse (parser.parse pC3 ["cmd", "-f", "v"]).1 ["cmd"]).1 0 = true :=
  ⟨by decide, C3_found_flags_monotone (parser.parse pC3 ["cmd", "-f", "v"]).1 ["cmd"] 0
    (by decide)⟩

/-- Claim C4.  The claim says a cluster's remaining suffix after a
value-taking letter is taken as that option's attached value (-o5 ≡ -o 5).
In the code's short-option walk (argpar.cpp 176-188) the suffix is
discarded: the walk breaks at the value-taking letter, option_name is set,
and set_parsed_value is invoked with value = nullopt, so the suffix
characters are never read.  At input ["cmd", "-aboX"] (a, b no-value
flags; o's string parameter has default "d"): a and b are condensed and
marked found as the claim says, the walk stops at o — but the suffix "X"
is dropped and o's destination receives the DEFAULT "d" instead of "X",
contradicting the claim and the parses_condensed test of option_test.cpp
(which expects -o1 to store 1). -/
theorem C4_condensed_suffix_dropped :
    (parser.parse pC4 ["cmd", "-aboX"]).2 = none ∧
    optFlagCell (parser.parse pC4 ["cmd", "-aboX"]).1 0 = some true ∧
    optFlagCell (parser.parse pC4 ["cmd", "-aboX"]).1 1 = some true ∧
    optFound (parser.parse pC4 ["cmd", "-aboX"]).1 2 = true ∧
    optDest (parser.parse pC4 ["cmd", "-aboX"]).1 2 = some (.vstr "d") := by
  decide

/-- Claim C5.  The claim says an unknown short-option letter raises
BadOption carrying the one-character string of that letter ("f" for input
"-f").  find_option(char) in argpar.h (lines 693-702) builds the name with
std::to_string(name); std::to_string has no char overload, the letter is
promoted to int, and the name becomes the decimal text of the character
code: parsing ["cmd", "-f"] with nothing declared raises
bad_option("102"), not bad_option("f") — contradicting the claim and the
bad_option_when_unknown test (parsing_test.cpp) which asserts
e.name() == "f". -/
theorem C5_unknown_short_reports_ascii_code :
    (parser.parse pC5 ["cmd", "-f"]).2 = some (.bad_option "102") := by
  decide

/-- Claim C6.  The claim says every in-range integer round-trips through
an int option with between(min,max) and every out-of-range one raises
BadValue carrying the offending token.  In the code
(cfg_integral_base::parse, argpar.h 293-308) the full-token check compares
ss.tellg() with value.size(); tellg() returns -1 once the extraction hit
EOF, so EVERY token is rejected as "does not represent a valid number":
at input ["cmd", "-f", "4"] with between(0,5), 4 is in range yet parse
raises bad_value and the destination keeps its prior contents -
contradicting the claim and the option_param_between / option_int_param
tests (which expect 4 resp. 12 to be stored).  The offending-token half of
the claim also fails: a bad_value never stores its value (see C8). -/
theorem C6_in_range_int_rejected :
    (parser.parse pC6 ["cmd", "-f", "4"]).2 = some (.bad_value
      (bad_value_exc.ctor3 "f" "4" "Value '4' does not represent a valid number.")) ∧
    optDest (parser.parse pC6 ["cmd", "-f", "4"]).1 0 = some (.vint 0) := by
  decide

/-- Claim C7.  The claim says from(allowed) accepts exactly the allowed
values and rejects all others with FormatError (surfaced as BadValue).
The code's membership test (string_cfg::parse, argpar.h 261-269) is
inverted: it throws precisely when std::find LOCATES the token in values_.
With from({"a","b","c"}): the allowed token "c" raises bad_value("Value
'c' is not allowed.") while the disallowed token "zz" is accepted and
stored — the exact opposite of the claim and of the
option_string_param_from_succes / _from_fail tests. -/
theorem C7_allowed_value_rejected :
    (parser.parse pC7 ["cmd", "-f", "c"]).2 = some (.bad_value
      (bad_value_exc.ctor3 "f" "c" "Value 'c' is not allowed.")) ∧
    (parser.parse pC7 ["cmd", "-f", "zz"]).2 = none ∧
    optDest (parser.parse pC7 ["cmd", "-f", "zz"]).1 0 = some (.vstr "zz") := by
  decide

/-- Claim C8.  Both bad_value constructors (argpar.h 160-177) ignore their
value parameter and never initialize the value_ member, so value() returns
the empty string for every bad_value the library constructs, and the
offending token is not retrievable from the exception object. -/
theorem C8_bad_value_value_always_empty (name v msg : String) :
    (bad_value_exc.ctor2 name v).value = "" ∧
    (bad_value_exc.ctor3 name v msg).value = "" :=
  ⟨rfl, rfl⟩

/-- Claim C9.  When a mandatory-valued option is pending its value, the
next token is consumed as that value whenever it is not exactly "--" —
even a token that begins with '-' and names a declared option (the
pending check at argpar.cpp line 154 precedes the option-syntax check) —
while a next token of exactly "--" ends the scan unconsumed (line 148
precedes the pending check) and parse then raises missing_value for the
pending option, so "--" is never consumed as an option's value.  Here f
pends after "-f" and g is a declared flag, so t may be instantiated with
"-g". -/
theorem C9_pending_option_consumes_next_token (t : String) (h : t ≠ "--") :
    ((parser.parse pC9 ["cmd", "-f", t]).2 = none ∧
      optDest (parser.parse pC9 ["cmd", "-f", t]).1 0 = some (.vstr t)) ∧
    (parser.parse pC9 ["cmd", "-f", "--"]).2 = some (.missing_value "f") ∧
    optDest (parser.parse pC9 ["cmd", "-f", "--"]).1 0 = some (.vstr "") := by
  refine ⟨?_, by decide⟩
  have hscan : scanLoop pC9 none ["-f", t] = .ok (pC9_after t) none [] := by
    have h1 : scanLoop pC9 none ["-f", t] = scanLoop pC9_found (some (0, "f")) [t] := rfl
    rw [h1]
    unfold scanLoop
    rw [if_neg h]
    rfl
  have hp : parser.parse pC9 ["cmd", "-f", t] = (pC9_after t, none) := by
    have hlen : ¬(["cmd", "-f", t].length < 1) := by simp
    unfold parser.parse
    rw [if_neg hlen]
    rw [show (["cmd", "-f", t].drop 1) = ["-f", t] from rfl]
    rw [hscan]
    rfl
  rw [hp]
  exact ⟨rfl, rfl⟩

/-- Witness for C9_pending_option_consumes_next_token at t = "-g", a token
that begins with '-' and names the declared option g. -/
theorem C9_pending_option_consumes_next_token_witness :
    ((parser.parse pC9 ["cmd", "-f", "-g"]).2 = none ∧
      optDest (parser.parse pC9 ["cmd", "-f", "-g"]).1 0 = some (.vstr "-g")) ∧
    (parser.parse pC9 ["cmd", "-f", "--"]).2 = some (.missing_value "f") ∧
    optDest (parser.parse pC9 ["cmd", "-f", "--"]).1 0 = some (.vstr "") :=
  C9_pending_option_consumes_next_token "-g" (by decide)

/-- Claim C10.  The only write the engine ever performs through a flag
option's boolean observation cell is option::set_found's *flag_dest_ =
true (argpar.h 593-598): across any parse call, an option's cell is either
exactly as before the call, or the option went through set_found — which
forces true into a non-null cell and found_ to true.  In particular the
value false is never written, so for a flag option that was not observed
(found still false after the call, second disjunct excluded) the caller's
cell retains whatever it held before the call. -/
theorem C10_flag_cell_never_written_false (p : parser) (args : List String) (i : Nat) :
    (optFlagCell (parser.parse p args).1 i = optFlagCell p i ∧
      optFound (parser.parse p args).1 i = optFound p i) ∨
    (optFlagCell (parser.parse p args).1 i = (optFlagCell p i).map (fun _ => true) ∧
      optFound (parser.parse p args).1 i = true) :=
  OptsMono.getD (parse_mono p args) i dummy_option

end argpar
